import Mathlib

/-!
Shallow embedding of the entity-configuration option functions of
`libpod/options.go` (podman libpod). Go closures of type
`func(*Runtime) error` / `func(*Container) error` / `func(*Volume) error`
that mutate their receiver in place are embedded as functions
`Entity → Entity × Option PodmanError`: the first component is the
receiver after the call (Go mutates in place, so mutations that happen
before an error return are visible), the second is the returned error
(`none` for Go `nil`).

External collaborators that are not part of this repository's source
(the storage library's `DefaultStoreOptions`, the secrets manager, and
`net.ParseIP`) are passed in as explicit parameters.
-/

namespace Podman

/-- Error taxonomy of the option functions: `define.ErrRuntimeFinalized`,
`define.ErrCtrFinalized`, `define.ErrVolumeFinalized`, wrapped
`define.ErrInvalidArg` values carrying their message, dependency-check
failures, and passthrough I/O errors. -/
inductive PodmanError where
  | runtimeFinalized : PodmanError
  | ctrFinalized : PodmanError
  | volumeFinalized : PodmanError
  | invalidArg : String → PodmanError
  | dependencyErr : String → PodmanError
  | ioErr : String → PodmanError
deriving DecidableEq, Repr

/-- `idtools.IDMap`: one (container-ID, host-ID, size) range of a
UID/GID translation table. The Go fields are `int`. -/
structure IDMap where
  containerID : Int
  hostID : Int
  size : Int
deriving DecidableEq, Repr

/-- The fields of `storage.StoreOptions` read or written by
`WithStorageConfig`. Nil-able Go slices are `Option` so that the
`!= nil` tests of the source are expressible. -/
structure StoreOptions where
  runRoot : String := ""
  graphRoot : String := ""
  graphDriverName : String := ""
  graphDriverOptions : Option (List String) := none
  uidMap : Option (List IDMap) := none
  gidMap : Option (List IDMap) := none
deriving DecidableEq, Repr

/-- The `storageSet` bookkeeping flags of the Runtime. -/
structure StorageSet where
  runRootSet : Bool := false
  graphRootSet : Bool := false
  staticDirSet : Bool := false
  volumePathSet : Bool := false
  graphDriverNameSet : Bool := false
deriving DecidableEq, Repr

/-- The fields of `config.EngineConfig` touched by the embedded runtime
options. -/
structure EngineConfig where
  staticDir : String := ""
  volumePath : String := ""
  volumePathSet : Bool := false
  infraImage : String := ""
  infraCommand : String := ""
  sdNotify : Bool := false
deriving DecidableEq, Repr

/-- The Runtime's `config` (only the `Engine` section is needed). -/
structure RuntimeConfig where
  engine : EngineConfig := {}
deriving DecidableEq, Repr

/-- The process-wide `Runtime` entity: `valid` is the finalize flag.
`imageContext` abstracts `rt.imageContext.SystemRegistriesConfPath`
(the only part of the image context the embedded options touch). -/
structure Runtime where
  valid : Bool := false
  storageConfig : StoreOptions := {}
  storageSet : StorageSet := {}
  config : RuntimeConfig := {}
  noStore : Bool := false
  imageContext : Option String := none
deriving DecidableEq, Repr

/-- `specs.LinuxIDMapping`: uint32 triple inside the OCI runtime spec. -/
structure LinuxIDMapping where
  hostID : Nat
  containerID : Nat
  size : Nat
deriving DecidableEq, Repr

/-- The part of the OCI spec (`ctr.config.Spec`) that
`generate.NewFromSpec` mutates through `ClearLinuxUIDMappings` /
`AddLinuxUIDMapping` and the GID equivalents. -/
structure OciSpec where
  uidMappings : List LinuxIDMapping := []
  gidMappings : List LinuxIDMapping := []
deriving DecidableEq, Repr

/-- `storage.IDMappingOptions` as stored in `ContainerConfig.IDMappings`. -/
structure IDMappingOptions where
  hostUIDMapping : Bool := false
  hostGIDMapping : Bool := false
  uidMap : List IDMap := []
  gidMap : List IDMap := []
deriving DecidableEq, Repr

/-- The fields of `ContainerConfig` touched by the embedded container
options. `envSecrets` models the Go `map[string]*secrets.Secret` as an
association list of (target, secret) pairs. `dnsServer` holds the parsed
`net.IP` values, modelled as their canonical strings. -/
structure ContainerConfig where
  id : String := ""
  pod : String := ""
  stopSignal : Nat := 0
  logDriver : String := ""
  dnsServer : List String := []
  dnsOption : List String := []
  dnsSearch : List String := []
  useImageResolvConf : Bool := false
  netNsCtr : String := ""
  userNsCtr : String := ""
  ipcNsCtr : String := ""
  idMappings : IDMappingOptions := {}
  envSecrets : List (String × String) := []
  spec : OciSpec := {}
deriving DecidableEq, Repr

/-- The `Container` entity: `valid` is the finalize flag. -/
structure Container where
  valid : Bool := false
  config : ContainerConfig := {}
deriving DecidableEq, Repr

/-- Modelled from the spec: `Container.ID()` is not under `src/`; per
the data model each entity is referenced "by string ID", and the
namespace-from options "store the referenced container's ID". -/
def Container.ID (c : Container) : String := c.config.id

/-- The volume's immutable configuration (fields relevant here). -/
structure VolumeConfig where
  isAnon : Bool := false
deriving DecidableEq, Repr

/-- The volume's mutable state: `NeedsChown` lives here
(`volume.state.NeedsChown`), not in the config. -/
structure VolumeState where
  needsChown : Bool := true
deriving DecidableEq, Repr

/-- The `Volume` entity: `valid` is the finalize flag. -/
structure Volume where
  valid : Bool := false
  config : VolumeConfig := {}
  state : VolumeState := {}
deriving DecidableEq, Repr

/-! ## Runtime creation options -/

/-- `WithStorageConfig` (options.go:39). `storage.DefaultStoreOptions`
is an external collaborator; its successful result is passed in as the
`defaults` parameter (host-computed default store options). -/
def WithStorageConfig (defaults : StoreOptions) (cfg : StoreOptions)
    (rt : Runtime) : Runtime × Option PodmanError :=
  if rt.valid then (rt, some .runtimeFinalized) else
  let setField := false
  let (rt, setField) :=
    if cfg.runRoot ≠ "" then
      ({ rt with storageConfig.runRoot := cfg.runRoot,
                 storageSet.runRootSet := true }, true)
    else (rt, setField)
  let (rt, setField) :=
    if cfg.graphRoot ≠ "" then
      ({ rt with storageConfig.graphRoot := cfg.graphRoot,
                 storageSet.graphRootSet := true,
                 config.engine.staticDir := cfg.graphRoot ++ "/libpod",
                 storageSet.staticDirSet := true,
                 config.engine.volumePath := cfg.graphRoot ++ "/volumes",
                 storageSet.volumePathSet := true }, true)
    else (rt, setField)
  let graphDriverChanged := false
  let (rt, setField, graphDriverChanged) :=
    if cfg.graphDriverName ≠ "" then
      ({ rt with storageConfig.graphDriverName := cfg.graphDriverName,
                 storageSet.graphDriverNameSet := true }, true, true)
    else (rt, setField, graphDriverChanged)
  let (rt, setField) :=
    match cfg.graphDriverOptions with
    | some opts =>
        -- deep copy when the driver changed, aliasing assignment
        -- otherwise; on values the two coincide
        if graphDriverChanged then
          ({ rt with storageConfig.graphDriverOptions := some opts }, true)
        else
          ({ rt with storageConfig.graphDriverOptions := some opts }, true)
    | none => (rt, setField)
  let rt :=
    match cfg.uidMap with
    | some m => { rt with storageConfig.uidMap := some m }
    | none => rt
  let rt :=
    match cfg.gidMap with
    | some m => { rt with storageConfig.gidMap := some m }
    | none => rt
  if setField then
    let rt :=
      if rt.storageConfig.graphRoot = "" then
        { rt with storageConfig.graphRoot := defaults.graphRoot }
      else rt
    let rt :=
      if rt.storageConfig.runRoot = "" then
        { rt with storageConfig.runRoot := defaults.runRoot }
      else rt
    (rt, none)
  else (rt, none)

/-- `WithRegistriesConf` (options.go:267): note the absence of a
finalize guard in the source. The `os.Stat(path)` call is an external
collaborator, passed in as its possible error `statErr`. -/
def WithRegistriesConf (statErr : Option PodmanError) (path : String)
    (rt : Runtime) : Runtime × Option PodmanError :=
  match statErr with
  | some e => (rt, some e)
  | none => ({ rt with imageContext := some path }, none)

/-- `WithNoStore` (options.go:359): note the absence of a finalize
guard in the source. -/
def WithNoStore (rt : Runtime) : Runtime × Option PodmanError :=
  ({ rt with noStore := true }, none)

/-- `WithDefaultInfraImage` (options.go:447). -/
def WithDefaultInfraImage (img : String) (rt : Runtime) :
    Runtime × Option PodmanError :=
  if rt.valid then (rt, some .runtimeFinalized)
  else ({ rt with config.engine.infraImage := img }, none)

/-- `WithDefaultInfraCommand` (options.go:461). -/
def WithDefaultInfraCommand (cmd : String) (rt : Runtime) :
    Runtime × Option PodmanError :=
  if rt.valid then (rt, some .runtimeFinalized)
  else ({ rt with config.engine.infraCommand := cmd }, none)

/-- `WithDefaultInfraName` (options.go:474): the source assigns
`rt.config.Engine.InfraImage`, the same field as
`WithDefaultInfraImage`. -/
def WithDefaultInfraName (name : String) (rt : Runtime) :
    Runtime × Option PodmanError :=
  if rt.valid then (rt, some .runtimeFinalized)
  else ({ rt with config.engine.infraImage := name }, none)

/-- `WithEnableSDNotify` (options.go:561): note the absence of a
finalize guard in the source. -/
def WithEnableSDNotify (rt : Runtime) : Runtime × Option PodmanError :=
  ({ rt with config.engine.sdNotify := true }, none)

/-! ## Container creation options -/

/-- Modelled from the spec: `checkDependencyContainer` is called
throughout options.go but defined elsewhere in the repository. §4.3:
"1. Fail if the referenced container is nil. 2. Fail if the referencing
container already belongs to a pod AND the referenced container does
not belong to the same pod. 3. On success, store the referenced
container's ID." The dependency argument is `Option Container` because
the Go parameter is a nil-able pointer. -/
def checkDependencyContainer (depCtr : Option Container) (ctr : Container) :
    Option PodmanError :=
  match depCtr with
  | none => some (.dependencyErr "must provide a non-nil container")
  | some dep =>
      if ctr.config.pod ≠ "" ∧ dep.config.pod ≠ ctr.config.pod then
        some (.dependencyErr "container has joined a pod and dependency is not a member of the same pod")
      else none

/-- `WithNetNSFrom` (options.go:904). -/
def WithNetNSFrom (nsCtr : Option Container) (ctr : Container) :
    Container × Option PodmanError :=
  if ctr.valid then (ctr, some .ctrFinalized) else
  match checkDependencyContainer nsCtr ctr with
  | some e => (ctr, some e)
  | none =>
      match nsCtr with
      | some dep => ({ ctr with config.netNsCtr := dep.ID }, none)
      | none => (ctr, none)

/-- `WithIPCNSFrom` (options.go:865). -/
def WithIPCNSFrom (nsCtr : Option Container) (ctr : Container) :
    Container × Option PodmanError :=
  if ctr.valid then (ctr, some .ctrFinalized) else
  match checkDependencyContainer nsCtr ctr with
  | some e => (ctr, some e)
  | none =>
      match nsCtr with
      | some dep => ({ ctr with config.ipcNsCtr := dep.ID }, none)
      | none => (ctr, none)

/-- Go's `uint32(x)` applied to an `int`: two's-complement truncation
to 32 bits. -/
def toUint32 (x : Int) : Nat := (x % 4294967296).toNat

/-- The `uint32` casts in `WithUserNSFrom`'s generator loop applied to
one `idtools.IDMap` entry, yielding a `specs.LinuxIDMapping`. -/
def toLinuxIDMapping (m : IDMap) : LinuxIDMapping :=
  { hostID := toUint32 m.hostID,
    containerID := toUint32 m.containerID,
    size := toUint32 m.size }

/-- Modelled from the spec: `Container.IDMappings()` and `JSONDeepCopy`
are not under `src/`. The accessor returns the container's ID-mapping
table; `JSONDeepCopy(src, &dst)` deep-copies `src` into `dst`, which on
values is plain assignment. -/
def Container.IDMappings (c : Container) : IDMappingOptions :=
  c.config.idMappings

/-- `WithUserNSFrom` (options.go:958). The OCI spec generator
(`generate.NewFromSpec(ctr.config.Spec)`, §6 contract) wraps the
container's spec in place: `ClearLinuxUIDMappings` empties the list and
each `AddLinuxUIDMapping(hostID, containerID, size)` appends, so the
two loops leave `spec.uidMappings`/`spec.gidMappings` equal to the
dependency's maps with each entry cast to `uint32`. -/
def WithUserNSFrom (nsCtr : Option Container) (ctr : Container) :
    Container × Option PodmanError :=
  if ctr.valid then (ctr, some .ctrFinalized) else
  match checkDependencyContainer nsCtr ctr with
  | some e => (ctr, some e)
  | none =>
      match nsCtr with
      | some dep =>
          let ctr := { ctr with config.userNsCtr := dep.ID }
          let ctr := { ctr with config.idMappings := dep.IDMappings }
          let ctr := { ctr with config.spec.uidMappings :=
            dep.config.idMappings.uidMap.map toLinuxIDMapping }
          let ctr := { ctr with config.spec.gidMappings :=
            dep.config.idMappings.gidMap.map toLinuxIDMapping }
          (ctr, none)
      | none => (ctr, none)

/-- Go's `uint(x)` applied to an `int` (64-bit platform):
two's-complement truncation to 64 bits. -/
def toUint (x : Int) : Nat := (x % 18446744073709551616).toNat

/-- `WithStopSignal` (options.go:768). `syscall.Signal` is a signed
integer type, embedded as `Int`; the accepted value is stored through
a `uint` conversion. -/
def WithStopSignal (signal : Int) (ctr : Container) :
    Container × Option PodmanError :=
  if ctr.valid then (ctr, some .ctrFinalized) else
  if signal = 0 then
    (ctr, some (.invalidArg "stop signal cannot be 0"))
  else if signal > 64 then
    (ctr, some (.invalidArg "stop signal cannot be greater than 64 (SIGRTMAX)"))
  else
    ({ ctr with config.stopSignal := toUint signal }, none)

/-- Modelled from the spec: the `define.*Logging` constants live
outside `src/`; §4.2 fixes the accepted set to
`{journald, kubernetes, json, none, passthrough}`. -/
def JournaldLogging : String := "journald"

/-- Modelled from the spec: see `JournaldLogging`. -/
def KubernetesLogging : String := "kubernetes"

/-- Modelled from the spec: see `JournaldLogging`. -/
def JSONLogging : String := "json"

/-- Modelled from the spec: see `JournaldLogging`. -/
def NoLogging : String := "none"

/-- Modelled from the spec: see `JournaldLogging`. -/
def PassthroughLogging : String := "passthrough"

/-- `WithLogDriver` (options.go:1120). -/
def WithLogDriver (driver : String) (ctr : Container) :
    Container × Option PodmanError :=
  if ctr.valid then (ctr, some .ctrFinalized) else
  if driver = "" then
    (ctr, some (.invalidArg "log driver must be set"))
  else if driver = JournaldLogging ∨ driver = KubernetesLogging ∨
      driver = JSONLogging ∨ driver = NoLogging ∨
      driver = PassthroughLogging then
    ({ ctr with config.logDriver := driver }, none)
  else
    (ctr, some (.invalidArg "invalid log driver"))

/-- The loop body of `WithDNS`: parse every entry with `net.ParseIP`
(passed in as `parseIP`, an external collaborator), returning the
parsed list, or the first entry that fails to parse. -/
def parseDNSServers (parseIP : String → Option String) :
    List String → Except String (List String)
  | [] => .ok []
  | s :: rest =>
      match parseIP s with
      | none => .error s
      | some ip =>
          match parseDNSServers parseIP rest with
          | .error e => .error e
          | .ok ips => .ok (ip :: ips)

/-- `WithDNS` (options.go:1222): parse all entries into a local slice,
failing on the first invalid one without touching the config, then
append the whole batch to `config.DNSServer`. -/
def WithDNS (parseIP : String → Option String) (dnsServers : List String)
    (ctr : Container) : Container × Option PodmanError :=
  if ctr.valid then (ctr, some .ctrFinalized) else
  match parseDNSServers parseIP dnsServers with
  | .error s => (ctr, some (.invalidArg ("invalid IP address " ++ s)))
  | .ok dns =>
      ({ ctr with config.dnsServer := ctr.config.dnsServer ++ dns }, none)

/-- `WithDNSOption` (options.go:1242). -/
def WithDNSOption (dnsOptions : List String) (ctr : Container) :
    Container × Option PodmanError :=
  if ctr.valid then (ctr, some .ctrFinalized) else
  if ctr.config.useImageResolvConf then
    (ctr, some (.invalidArg "cannot add DNS options if container will not create /etc/resolv.conf"))
  else
    ({ ctr with config.dnsOption := ctr.config.dnsOption ++ dnsOptions }, none)

/-- `WithUseImageResolvConf` (options.go:1383): no check of
already-present DNS options. -/
def WithUseImageResolvConf (ctr : Container) :
    Container × Option PodmanError :=
  if ctr.valid then (ctr, some .ctrFinalized)
  else ({ ctr with config.useImageResolvConf := true }, none)

/-- `WithEnvSecrets` (options.go:1777). The secrets manager is an
external collaborator, passed in as `manager` (`Except` models the
fallible `ctr.runtime.SecretsManager()` call; the function inside is
`Lookup`). Note that the source allocates a fresh empty map into
`ctr.config.EnvSecrets` BEFORE the finalize check. -/
def WithEnvSecrets (manager : Except PodmanError (String → Except PodmanError String))
    (envSecrets : List (String × String)) (ctr : Container) :
    Container × Option PodmanError :=
  let ctr := { ctr with config.envSecrets := [] }
  if ctr.valid then (ctr, some .ctrFinalized) else
  match manager with
  | .error e => (ctr, some e)
  | .ok lookup =>
      let rec loop (ctr : Container) :
          List (String × String) → Container × Option PodmanError
        | [] => (ctr, none)
        | (target, src) :: rest =>
            match lookup src with
            | .error e => (ctr, some e)
            | .ok secr =>
                loop { ctr with config.envSecrets :=
                  ctr.config.envSecrets ++ [(target, secr)] } rest
      loop ctr envSecrets

/-! ## Volume creation options -/

/-- `WithVolumeNoChown` (options.go:1700): the finalize guard IS
present; on success the mutable state field `NeedsChown` is set to
`false`. -/
def WithVolumeNoChown (volume : Volume) : Volume × Option PodmanError :=
  if volume.valid then (volume, some .volumeFinalized)
  else ({ volume with state.needsChown := false }, none)

/-! ## Theorems -/

/-- C10: `WithDefaultInfraName` writes to the same `Engine.InfraImage`
field that `WithDefaultInfraImage` writes, and sets no other field:
applying `WithDefaultInfraImage img` followed by
`WithDefaultInfraName name` to an unfinalized Runtime leaves
`Engine.InfraImage` equal to `name` (the image value is overwritten),
with no distinct infra-name field being set by either option. -/
theorem withDefaultInfraName_overwrites_infraImage (rt : Runtime)
    (img name : String) (h : rt.valid = false) :
    WithDefaultInfraImage img rt =
      ({ rt with config.engine.infraImage := img }, none) ∧
    WithDefaultInfraName name (WithDefaultInfraImage img rt).1 =
      ({ rt with config.engine.infraImage := name }, none) := by
  obtain ⟨v, sc, ss, ⟨⟨sd, vp, vps, ii, ic, sn⟩⟩, ns, ic2⟩ := rt
  subst h
  exact ⟨rfl, rfl⟩

/-- Witness for C10 at a concrete runtime. -/
theorem withDefaultInfraName_overwrites_infraImage_witness :
    Runtime.valid {} = false ∧
    WithDefaultInfraName "pause-ctr" (WithDefaultInfraImage "pause-img" {}).1 =
      ({ config := { engine := { infraImage := "pause-ctr" } } }, none) := by
  refine ⟨rfl, ?_⟩
  exact (withDefaultInfraName_overwrites_infraImage {} "pause-img" "pause-ctr" rfl).2

/-- C9 counterexample: `WithVolumeNoChown` does NOT bypass the finalize
guard. Applied to a volume whose `valid` flag is true, it returns
`ErrVolumeFinalized` and leaves `state.NeedsChown` unchanged (still
`true`), contrary to the claim that it succeeds and mutates. -/
theorem withVolumeNoChown_guarded_counterexample :
    Volume.valid { valid := true, state := { needsChown := true } } = true ∧
    WithVolumeNoChown { valid := true, state := { needsChown := true } } =
      ({ valid := true, state := { needsChown := true } },
        some .volumeFinalized) := by
  exact ⟨rfl, rfl⟩

/-- C9 amended: `WithVolumeNoChown` respects the finalize guard like
every other volume option: on a finalized volume it fails with
`ErrVolumeFinalized` and leaves `NeedsChown` unchanged; only on an
unfinalized volume does it mutate, setting the mutable state field
`state.NeedsChown` (which lives outside the immutable config) to
`false`. -/
theorem withVolumeNoChown_spec (v : Volume) :
    (v.valid = true →
      WithVolumeNoChown v = (v, some .volumeFinalized)) ∧
    (v.valid = false →
      WithVolumeNoChown v = ({ v with state.needsChown := false }, none)) := by
  constructor
  · intro h
    simp [WithVolumeNoChown, h]
  · intro h
    simp [WithVolumeNoChown, h]

/-- Witness for C9's amended theorem at concrete volumes. -/
theorem withVolumeNoChown_spec_witness :
    WithVolumeNoChown { valid := true } =
      ({ valid := true }, some .volumeFinalized) ∧
    WithVolumeNoChown { valid := false } =
      ({ valid := false, state := { needsChown := false } }, none) :=
  ⟨(withVolumeNoChown_spec { valid := true }).1 rfl,
   (withVolumeNoChown_spec { valid := false }).2 rfl⟩

/-- C5 counterexample: `syscall.Signal` is a signed integer and the
source only rejects `0` and values `> 64`, so the negative signal `-1`
is accepted (no error) and stored through the `uint` conversion as
`2^64 - 1`, although `-1` is not in the range `[1, 64]` — refuting
"accepts if and only if the signal is in the range 1 to 64". -/
theorem withStopSignal_negative_accepted :
    (WithStopSignal (-1) {}).2 = none ∧
    (WithStopSignal (-1) {}).1.config.stopSignal = 18446744073709551615 ∧
    ¬ (1 ≤ (-1 : Int) ∧ (-1 : Int) ≤ 64) := by
  refine ⟨rfl, ?_, by decide⟩
  rfl

/-- C5 amended: on an unfinalized container `WithStopSignal` rejects
`0` ("stop signal cannot be 0") and every value greater than `64`
("stop signal cannot be greater than 64 (SIGRTMAX)") leaving the
container unchanged, and accepts every other value — all of `[1, 64]`
but also every negative value — storing it in `config.StopSignal`
through Go's `uint` conversion (two's complement, 64-bit). -/
theorem withStopSignal_spec (signal : Int) (ctr : Container)
    (h : ctr.valid = false) :
    (signal = 0 →
      WithStopSignal signal ctr =
        (ctr, some (.invalidArg "stop signal cannot be 0"))) ∧
    (signal > 64 →
      WithStopSignal signal ctr =
        (ctr, some (.invalidArg "stop signal cannot be greater than 64 (SIGRTMAX)"))) ∧
    (signal ≠ 0 → signal ≤ 64 →
      WithStopSignal signal ctr =
        ({ ctr with config.stopSignal := toUint signal }, none)) := by
  refine ⟨?_, ?_, ?_⟩
  · intro h0
    simp [WithStopSignal, h, h0]
  · intro h64
    have h0 : ¬ signal = 0 := by omega
    simp [WithStopSignal, h, h0, h64]
  · intro h0 h64
    have : ¬ signal > 64 := by omega
    simp [WithStopSignal, h, h0, this]

/-- Witness for C5's amended theorem: rejection of 0 and 65,
acceptance of 64. -/
theorem withStopSignal_spec_witness :
    WithStopSignal 0 {} =
      ({}, some (.invalidArg "stop signal cannot be 0")) ∧
    WithStopSignal 65 {} =
      ({}, some (.invalidArg "stop signal cannot be greater than 64 (SIGRTMAX)")) ∧
    WithStopSignal 64 {} =
      ({ config := { stopSignal := 64 } }, none) := by
  refine ⟨(withStopSignal_spec 0 {} rfl).1 rfl,
          (withStopSignal_spec 65 {} rfl).2.1 (by norm_num), ?_⟩
  have h := (withStopSignal_spec 64 {} rfl).2.2 (by norm_num) (by norm_num)
  simpa [toUint] using h

/-- C6: on an unfinalized container `WithLogDriver` accepts exactly the
drivers in `{journald, kubernetes, json, none, passthrough}` (setting
`config.LogDriver`); the empty string is rejected with the
"must be set" error and every other string with "invalid log driver",
leaving the container unchanged. -/
theorem withLogDriver_spec (driver : String) (ctr : Container)
    (h : ctr.valid = false) :
    ((WithLogDriver driver ctr).2 = none ↔
      driver ∈ ["journald", "kubernetes", "json", "none", "passthrough"]) ∧
    (driver = "" →
      WithLogDriver driver ctr =
        (ctr, some (.invalidArg "log driver must be set"))) ∧
    (driver ∈ ["journald", "kubernetes", "json", "none", "passthrough"] →
      WithLogDriver driver ctr =
        ({ ctr with config.logDriver := driver }, none)) ∧
    (driver ∉ ["journald", "kubernetes", "json", "none", "passthrough"] →
      driver ≠ "" →
      WithLogDriver driver ctr =
        (ctr, some (.invalidArg "invalid log driver"))) := by
  have hmem : driver ∈ ["journald", "kubernetes", "json", "none", "passthrough"] ↔
      (driver = JournaldLogging ∨ driver = KubernetesLogging ∨
       driver = JSONLogging ∨ driver = NoLogging ∨
       driver = PassthroughLogging) := by
    simp [JournaldLogging, KubernetesLogging, JSONLogging, NoLogging,
      PassthroughLogging]
  by_cases he : driver = ""
  · subst he
    have hnm : ¬ ("" = JournaldLogging ∨ "" = KubernetesLogging ∨
        "" = JSONLogging ∨ "" = NoLogging ∨ "" = PassthroughLogging) := by
      simp [JournaldLogging, KubernetesLogging, JSONLogging, NoLogging,
        PassthroughLogging]
    simp [WithLogDriver, h, hmem, hnm]
  · by_cases hm : driver = JournaldLogging ∨ driver = KubernetesLogging ∨
        driver = JSONLogging ∨ driver = NoLogging ∨
        driver = PassthroughLogging
    · simp [WithLogDriver, h, he, hm, hmem]
    · simp [WithLogDriver, h, he, hm, hmem]

/-- Witness for C6: "passthrough" accepted, "" and "syslog" rejected. -/
theorem withLogDriver_spec_witness :
    WithLogDriver "passthrough" {} =
      ({ config := { logDriver := "passthrough" } }, none) ∧
    WithLogDriver "" {} =
      ({}, some (.invalidArg "log driver must be set")) ∧
    WithLogDriver "syslog" {} =
      ({}, some (.invalidArg "invalid log driver")) :=
  ⟨(withLogDriver_spec "passthrough" {} rfl).2.2.1 (by decide),
   (withLogDriver_spec "" {} rfl).2.1 rfl,
   (withLogDriver_spec "syslog" {} rfl).2.2.2 (by decide) (by decide)⟩

/-- C8: on an unfinalized container `WithDNSOption` fails with an
InvalidArgument error, leaving `config.DNSOption` unchanged, whenever
`config.UseImageResolvConf` is already true; but the reverse order is
not checked: `WithUseImageResolvConf` succeeds and sets the flag even
when DNS options were already added by a prior `WithDNSOption`. -/
theorem withDNSOption_resolvConf_asymmetry (ctr : Container)
    (opts : List String) (h : ctr.valid = false) :
    (ctr.config.useImageResolvConf = true →
      WithDNSOption opts ctr =
        (ctr, some (.invalidArg
          "cannot add DNS options if container will not create /etc/resolv.conf"))) ∧
    (ctr.config.useImageResolvConf = false →
      WithDNSOption opts ctr =
        ({ ctr with config.dnsOption := ctr.config.dnsOption ++ opts },
          none) ∧
      WithUseImageResolvConf (WithDNSOption opts ctr).1 =
        ({ ctr with config.dnsOption := ctr.config.dnsOption ++ opts,
                    config.useImageResolvConf := true }, none)) := by
  obtain ⟨v, cid, pod, ss, ld, dsrv, dopt, dsearch, uirc, nns, uns, ins,
    idm, es, sp⟩ := ctr
  simp only at h
  subst h
  constructor
  · intro hu
    simp only at hu
    subst hu
    exact rfl
  · intro hu
    simp only at hu
    subst hu
    exact ⟨rfl, rfl⟩

/-- Witness for C8 at a concrete container: with the flag already set,
`WithDNSOption` fails; starting from the flag unset, `WithDNSOption`
then `WithUseImageResolvConf` both succeed. -/
theorem withDNSOption_resolvConf_asymmetry_witness :
    WithDNSOption ["ndots:2"]
        { config := { useImageResolvConf := true } } =
      ({ config := { useImageResolvConf := true } },
        some (.invalidArg
          "cannot add DNS options if container will not create /etc/resolv.conf")) ∧
    WithUseImageResolvConf (WithDNSOption ["ndots:2"] {}).1 =
      ({ config := { dnsOption := ["ndots:2"],
                     useImageResolvConf := true } }, none) :=
  ⟨(withDNSOption_resolvConf_asymmetry
      { config := { useImageResolvConf := true } } ["ndots:2"] rfl).1 rfl,
   ((withDNSOption_resolvConf_asymmetry {} ["ndots:2"] rfl).2 rfl).2⟩

/-- C1 counterexample: not every option function guards on the
finalize flag. On entities with `valid = true`: `WithNoStore`,
`WithEnableSDNotify` and `WithRegistriesConf` return no error and
mutate the Runtime, and `WithEnvSecrets` clears `config.EnvSecrets`
(here previously `[("TARGET", "src")]`) before returning its
FinalizedError — all four refute "returns a FinalizedError and leaves
every configuration field unchanged". -/
theorem finalize_guard_counterexample :
    Runtime.valid { valid := true } = true ∧
    WithNoStore { valid := true } =
      ({ valid := true, noStore := true }, none) ∧
    WithEnableSDNotify { valid := true } =
      ({ valid := true, config := { engine := { sdNotify := true } } },
        none) ∧
    WithRegistriesConf none "/etc/containers/registries.conf"
        { valid := true } =
      ({ valid := true,
         imageContext := some "/etc/containers/registries.conf" }, none) ∧
    WithEnvSecrets (.ok fun _ => .ok "secret") []
        { valid := true, config := { envSecrets := [("TARGET", "src")] } } =
      ({ valid := true, config := {} }, some .ctrFinalized) :=
  ⟨rfl, rfl, rfl, rfl, rfl⟩

/-- C1 amended: every embedded option function EXCEPT `WithNoStore`,
`WithEnableSDNotify`, `WithRegistriesConf` and `WithEnvSecrets`
performs the finalize check first: applied to an entity with
`valid = true` it returns the FinalizedError and leaves every field
unchanged. The exceptions: `WithNoStore`, `WithEnableSDNotify` and
`WithRegistriesConf` have no finalize guard at all and mutate even a
finalized Runtime, and `WithEnvSecrets` resets `config.EnvSecrets` to
an empty map before its finalize check, so that mutation is visible
alongside its FinalizedError. -/
theorem finalize_guard_spec
    (rt : Runtime) (ctr : Container) (v : Volume)
    (defaults cfg : StoreOptions) (img name cmd path : String)
    (signal : Int) (driver : String)
    (parseIP : String → Option String) (servers opts : List String)
    (nsCtr : Option Container)
    (manager : Except PodmanError (String → Except PodmanError String))
    (env : List (String × String))
    (hrt : rt.valid = true) (hctr : ctr.valid = true)
    (hv : v.valid = true) :
    WithStorageConfig defaults cfg rt = (rt, some .runtimeFinalized) ∧
    WithDefaultInfraImage img rt = (rt, some .runtimeFinalized) ∧
    WithDefaultInfraCommand cmd rt = (rt, some .runtimeFinalized) ∧
    WithDefaultInfraName name rt = (rt, some .runtimeFinalized) ∧
    WithStopSignal signal ctr = (ctr, some .ctrFinalized) ∧
    WithLogDriver driver ctr = (ctr, some .ctrFinalized) ∧
    WithDNS parseIP servers ctr = (ctr, some .ctrFinalized) ∧
    WithDNSOption opts ctr = (ctr, some .ctrFinalized) ∧
    WithUseImageResolvConf ctr = (ctr, some .ctrFinalized) ∧
    WithNetNSFrom nsCtr ctr = (ctr, some .ctrFinalized) ∧
    WithIPCNSFrom nsCtr ctr = (ctr, some .ctrFinalized) ∧
    WithUserNSFrom nsCtr ctr = (ctr, some .ctrFinalized) ∧
    WithVolumeNoChown v = (v, some .volumeFinalized) ∧
    WithNoStore rt = ({ rt with noStore := true }, none) ∧
    WithEnableSDNotify rt =
      ({ rt with config.engine.sdNotify := true }, none) ∧
    WithRegistriesConf none path rt =
      ({ rt with imageContext := some path }, none) ∧
    WithEnvSecrets manager env ctr =
      ({ ctr with config.envSecrets := [] }, some .ctrFinalized) := by
  obtain ⟨rv, rsc, rss, rcfg, rns, ric⟩ := rt
  obtain ⟨cv, ccfg⟩ := ctr
  obtain ⟨vv, vcfg, vst⟩ := v
  simp only at hrt hctr hv
  subst hrt hctr hv
  refine ⟨rfl, rfl, rfl, rfl, rfl, rfl, rfl, rfl, rfl, rfl, rfl, rfl,
    rfl, rfl, ?_, rfl, rfl⟩
  exact rfl

/-- Witness for C1's amended theorem at concrete finalized entities. -/
theorem finalize_guard_spec_witness :
    WithStopSignal 9 { valid := true } =
      ({ valid := true }, some .ctrFinalized) ∧
    WithNoStore { valid := true } =
      ({ valid := true, noStore := true }, none) := by
  have h := finalize_guard_spec { valid := true } { valid := true }
    { valid := true } {} {} "img" "name" "cmd" "/p" 9 "journald"
    (fun _ => none) [] [] none (.ok fun _ => .ok "s") [] rfl rfl rfl
  obtain ⟨-, -, -, -, h5, -, -, -, -, -, -, -, -, h14, -, -, -⟩ := h
  exact ⟨h5, h14⟩

/-- C2: on an unfinalized container B that belongs to a pod,
`WithNetNSFrom(A)` with A in a different pod fails with a
DependencyError leaving B (in particular `config.NetNsCtr`) unchanged;
with A in the same pod it succeeds and stores A's ID in
`config.NetNsCtr`. -/
theorem withNetNSFrom_pod_check (A B : Container) (h : B.valid = false)
    (hB : B.config.pod ≠ "") :
    (A.config.pod ≠ B.config.pod →
      WithNetNSFrom (some A) B =
        (B, some (.dependencyErr
          "container has joined a pod and dependency is not a member of the same pod"))) ∧
    (A.config.pod = B.config.pod →
      WithNetNSFrom (some A) B =
        ({ B with config.netNsCtr := A.ID }, none)) := by
  constructor
  · intro hne
    have hchk : checkDependencyContainer (some A) B =
        some (.dependencyErr
          "container has joined a pod and dependency is not a member of the same pod") := by
      simp only [checkDependencyContainer]
      rw [if_pos ⟨hB, hne⟩]
    simp [WithNetNSFrom, h, hchk]
  · intro heq
    have hchk : checkDependencyContainer (some A) B = none := by
      simp only [checkDependencyContainer]
      rw [if_neg]
      intro hc
      exact hc.2 heq
    simp [WithNetNSFrom, h, hchk]

/-- Witness for C2: cross-pod rejection and same-pod acceptance at
concrete containers. -/
theorem withNetNSFrom_pod_check_witness :
    WithNetNSFrom (some { config := { id := "aid", pod := "p1" } })
        { config := { pod := "p2" } } =
      ({ config := { pod := "p2" } },
        some (.dependencyErr
          "container has joined a pod and dependency is not a member of the same pod")) ∧
    WithNetNSFrom (some { config := { id := "aid", pod := "p1" } })
        { config := { pod := "p1" } } =
      ({ config := { pod := "p1", netNsCtr := "aid" } }, none) := by
  constructor
  · exact (withNetNSFrom_pod_check
      { config := { id := "aid", pod := "p1" } }
      { config := { pod := "p2" } } rfl (by decide)).1 (by decide)
  · exact (withNetNSFrom_pod_check
      { config := { id := "aid", pod := "p1" } }
      { config := { pod := "p1" } } rfl (by decide)).2 (by decide)

/-- C3: on an unfinalized container B with a dependency container A
passing the dependency check, `WithUserNSFrom(A)` sets `config.UserNsCtr`
to A's ID, copies A's full ID-mapping table into B's config exactly
(order and every triple preserved), and leaves the OCI spec's Linux
UID/GID mappings cleared and rebuilt one entry per entry of A's UID/GID
map in original order (each `int` field cast to `uint32` by the source's
conversions); the trailing conjuncts restate the 1:1 index-wise
correspondence explicitly. -/
theorem withUserNSFrom_spec (A B : Container) (h : B.valid = false)
    (hdep : checkDependencyContainer (some A) B = none) :
    WithUserNSFrom (some A) B =
      ({ B with config.userNsCtr := A.ID,
                config.idMappings := A.config.idMappings,
                config.spec.uidMappings :=
                  A.config.idMappings.uidMap.map toLinuxIDMapping,
                config.spec.gidMappings :=
                  A.config.idMappings.gidMap.map toLinuxIDMapping },
        none) ∧
    (WithUserNSFrom (some A) B).1.config.idMappings =
      A.config.idMappings ∧
    (∀ i : Nat, (WithUserNSFrom (some A) B).1.config.spec.uidMappings[i]? =
      (A.config.idMappings.uidMap[i]?).map toLinuxIDMapping) ∧
    (∀ i : Nat, (WithUserNSFrom (some A) B).1.config.spec.gidMappings[i]? =
      (A.config.idMappings.gidMap[i]?).map toLinuxIDMapping) := by
  have hmain : WithUserNSFrom (some A) B =
      ({ B with config.userNsCtr := A.ID,
                config.idMappings := A.config.idMappings,
                config.spec.uidMappings :=
                  A.config.idMappings.uidMap.map toLinuxIDMapping,
                config.spec.gidMappings :=
                  A.config.idMappings.gidMap.map toLinuxIDMapping },
        none) := by
    simp [WithUserNSFrom, h, hdep, Container.IDMappings]
  refine ⟨hmain, ?_, ?_, ?_⟩
  · rw [hmain]
  · intro i
    rw [hmain]
    simp [List.getElem?_map]
  · intro i
    rw [hmain]
    simp [List.getElem?_map]

/-- Witness for C3 at a concrete dependency container carrying a
two-range UID map and a one-range GID map. -/
theorem withUserNSFrom_spec_witness :
    WithUserNSFrom
      (some
        { config :=
          { id := "aid",
            idMappings :=
            { uidMap := [⟨0, 1000, 1⟩, ⟨1, 100000, 65536⟩],
              gidMap := [⟨0, 1000, 1⟩] } } })
      {} =
      ({ config :=
         { userNsCtr := "aid",
           idMappings :=
           { uidMap := [⟨0, 1000, 1⟩, ⟨1, 100000, 65536⟩],
             gidMap := [⟨0, 1000, 1⟩] },
           spec :=
           { uidMappings := [⟨1000, 0, 1⟩, ⟨100000, 1, 65536⟩],
             gidMappings := [⟨1000, 0, 1⟩] } } }, none) := by
  have h := (withUserNSFrom_spec
    { config :=
      { id := "aid",
        idMappings :=
        { uidMap := [⟨0, 1000, 1⟩, ⟨1, 100000, 65536⟩],
          gidMap := [⟨0, 1000, 1⟩] } } }
    {} rfl rfl).1
  rw [h]
  rfl

/-- C4 counterexample: applying `WithStorageConfig` with only
`GraphDriverName` set to a fresh Runtime (everything empty) populates
`storageConfig.GraphRoot` with the host default, but leaves
`Engine.StaticDir` empty rather than equal to `GraphRoot/libpod` —
refuting the claimed `StaticDir`/`VolumePath` derivation. -/
theorem withStorageConfig_staticDir_counterexample :
    (WithStorageConfig
        { runRoot := "/run/containers/storage",
          graphRoot := "/var/lib/containers/storage" }
        { graphDriverName := "overlay" } {}).1.storageConfig.graphRoot =
      "/var/lib/containers/storage" ∧
    (WithStorageConfig
        { runRoot := "/run/containers/storage",
          graphRoot := "/var/lib/containers/storage" }
        { graphDriverName := "overlay" } {}).1.config.engine.staticDir =
      "" ∧
    ("" : String) ≠ "/var/lib/containers/storage" ++ "/libpod" := by
  refine ⟨rfl, rfl, by decide⟩

/-- C4 amended: applying `WithStorageConfig` with only
`GraphDriverName` set (RunRoot/GraphRoot empty in the argument and in
the runtime, slices nil) to an unfinalized Runtime populates both
`storageConfig.RunRoot` and `storageConfig.GraphRoot` with the
host-computed default storage paths and records the driver name, but
leaves `Engine.StaticDir` and `Engine.VolumePath` unchanged: the
`GraphRoot/libpod` and `GraphRoot/volumes` derivation happens only when
the argument's GraphRoot is nonempty. -/
theorem withStorageConfig_driver_only (rt : Runtime)
    (defaults cfg : StoreOptions) (h : rt.valid = false)
    (hrr : cfg.runRoot = "") (hgr : cfg.graphRoot = "")
    (hgd : cfg.graphDriverName ≠ "")
    (hopts : cfg.graphDriverOptions = none)
    (huid : cfg.uidMap = none) (hgid : cfg.gidMap = none)
    (hrr0 : rt.storageConfig.runRoot = "")
    (hgr0 : rt.storageConfig.graphRoot = "") :
    WithStorageConfig defaults cfg rt =
      ({ rt with
           storageConfig.runRoot := defaults.runRoot,
           storageConfig.graphRoot := defaults.graphRoot,
           storageConfig.graphDriverName := cfg.graphDriverName,
           storageSet.graphDriverNameSet := true }, none) := by
  obtain ⟨v, ⟨rr, gr, gdn, gdo, um, gm⟩, ss, rcfg, ns, ic⟩ := rt
  obtain ⟨crr, cgr, cgdn, cgdo, cum, cgm⟩ := cfg
  simp only at h hrr hgr hopts huid hgid hrr0 hgr0
  subst h hrr hgr hopts huid hgid hrr0 hgr0
  simp only at hgd
  simp [WithStorageConfig, hgd]

/-- Witness for C4's amended theorem at a concrete Runtime and concrete
host defaults. -/
theorem withStorageConfig_driver_only_witness :
    WithStorageConfig
        { runRoot := "/run/containers/storage",
          graphRoot := "/var/lib/containers/storage" }
        { graphDriverName := "overlay" } {} =
      ({ storageConfig := { runRoot := "/run/containers/storage",
                            graphRoot := "/var/lib/containers/storage",
                            graphDriverName := "overlay" },
         storageSet := { graphDriverNameSet := true } }, none) := by
  have h := withStorageConfig_driver_only {}
    { runRoot := "/run/containers/storage",
      graphRoot := "/var/lib/containers/storage" }
    { graphDriverName := "overlay" } rfl rfl rfl (by decide) rfl rfl rfl
    rfl rfl
  rw [h]

/-- If every entry parses, the `WithDNS` loop returns all parsed
values in order. -/
theorem parseDNSServers_all_some (parseIP : String → Option String)
    (l : List String) (h : ∀ s ∈ l, (parseIP s).isSome) :
    parseDNSServers parseIP l =
      .ok (l.map fun s => (parseIP s).getD "") := by
  induction l with
  | nil => rfl
  | cons s rest ih =>
      have hs := h s (List.mem_cons_self s rest)
      obtain ⟨ip, hip⟩ := Option.isSome_iff_exists.mp hs
      have hrest := ih fun x hx => h x (List.mem_cons_of_mem s hx)
      simp [parseDNSServers, hip, hrest]

/-- The `WithDNS` loop stops at the first entry that fails to parse
and reports exactly that entry. -/
theorem parseDNSServers_first_error (parseIP : String → Option String)
    (pre : List String) (bad : String) (post : List String)
    (hpre : ∀ s ∈ pre, (parseIP s).isSome) (hbad : parseIP bad = none) :
    parseDNSServers parseIP (pre ++ bad :: post) = .error bad := by
  induction pre with
  | nil => simp [parseDNSServers, hbad]
  | cons s rest ih =>
      have hs := hpre s (List.mem_cons_self s rest)
      obtain ⟨ip, hip⟩ := Option.isSome_iff_exists.mp hs
      have h2 := ih fun x hx => hpre x (List.mem_cons_of_mem s hx)
      simp [parseDNSServers, hip, h2]

/-- C7: on an unfinalized container, `WithDNS` either parses every
entry and appends all of them to `config.DNSServer` in the given
order, or fails with an InvalidArgument error naming the first entry
that is not a valid IP literal, leaving the container (in particular
`config.DNSServer`) completely unchanged. -/
theorem withDNS_spec (parseIP : String → Option String)
    (servers : List String) (ctr : Container) (h : ctr.valid = false) :
    ((∀ s ∈ servers, (parseIP s).isSome) →
      WithDNS parseIP servers ctr =
        ({ ctr with config.dnsServer := ctr.config.dnsServer ++
             (servers.map fun s => (parseIP s).getD "") }, none)) ∧
    (∀ pre bad post, servers = pre ++ bad :: post →
      (∀ s ∈ pre, (parseIP s).isSome) → parseIP bad = none →
      WithDNS parseIP servers ctr =
        (ctr, some (.invalidArg ("invalid IP address " ++ bad)))) := by
  constructor
  · intro hall
    have hp := parseDNSServers_all_some parseIP servers hall
    simp [WithDNS, h, hp]
  · intro pre bad post hsplit hpre hbad
    subst hsplit
    have hp := parseDNSServers_first_error parseIP pre bad post hpre hbad
    simp [WithDNS, h, hp]

/-- Witness for C7 with a concrete parse function: an all-valid batch
is appended in order; a batch containing one invalid entry fails
naming it and leaves the container unchanged. -/
theorem withDNS_spec_witness :
    WithDNS (fun s => if s = "bad" then none else some s)
        ["1.1.1.1", "8.8.8.8"] {} =
      ({ config := { dnsServer := ["1.1.1.1", "8.8.8.8"] } }, none) ∧
    WithDNS (fun s => if s = "bad" then none else some s)
        ["1.1.1.1", "bad", "8.8.8.8"] {} =
      ({}, some (.invalidArg "invalid IP address bad")) := by
  constructor
  · have h := (withDNS_spec (fun s => if s = "bad" then none else some s)
      ["1.1.1.1", "8.8.8.8"] {} rfl).1 (by decide)
    rw [h]
    rfl
  · have h := (withDNS_spec (fun s => if s = "bad" then none else some s)
      ["1.1.1.1", "bad", "8.8.8.8"] {} rfl).2 ["1.1.1.1"] "bad"
      ["8.8.8.8"] rfl (by decide) (by decide)
    rw [h]
    rfl

end Podman
